import Mathlib

/-
  Verification development for the pretix-secuconnect payment plugin.

  The definitions below are a shallow embedding of the reconciliation core of
  the plugin: the gateway status enum and API client surface
  (src/pretix_secuconnect/api_client.py) and the webhook / redirect-return
  handlers (src/pretix_secuconnect/views.py).  Stateful Django/pretix code is
  embedded as explicit state passing over a `Payment` record; a Python
  exception that escapes a handler is recorded in the result's `raised` field
  (database writes performed before the raise survive, as they do in the
  original).  Money amounts are embedded as exact rationals; the original
  converts minor units through a float and rounds to the currency's decimal
  places, which is exact for the magnitudes at hand.
-/

namespace PretixSecuconnect

/-- The gateway status enum `PaymentStatusSimple` from api_client.py,
wire codes 0..14. -/
inductive PaymentStatusSimple
  | PROCEED
  | ACCEPTED
  | AUTHORIZED
  | DENIED
  | ISSUE
  | VOID
  | ISSUE_RESOLVED
  | REFUND
  | CREATED
  | PAID
  | PENDING
  | SUBSCRIPTION_APPROVED
  | SUBSCRIPTION_DECLINED
  | ON_HOLD
  | WAITING_FOR_SHIPMENT
deriving DecidableEq, Repr, Fintype

namespace PaymentStatusSimple

/-- `PaymentStatusSimple(code)`: Python enum lookup by wire code; an unknown
code raises `ValueError`, embedded as `none`. -/
def ofCode : Nat → Option PaymentStatusSimple
  | 0 => some PROCEED
  | 1 => some ACCEPTED
  | 2 => some AUTHORIZED
  | 3 => some DENIED
  | 4 => some ISSUE
  | 5 => some VOID
  | 6 => some ISSUE_RESOLVED
  | 7 => some REFUND
  | 8 => some CREATED
  | 9 => some PAID
  | 10 => some PENDING
  | 11 => some SUBSCRIPTION_APPROVED
  | 12 => some SUBSCRIPTION_DECLINED
  | 13 => some ON_HOLD
  | 14 => some WAITING_FOR_SHIPMENT
  | _ => none

/-- Wire code of a status (the Python enum value). -/
def code : PaymentStatusSimple → Nat
  | PROCEED => 0
  | ACCEPTED => 1
  | AUTHORIZED => 2
  | DENIED => 3
  | ISSUE => 4
  | VOID => 5
  | ISSUE_RESOLVED => 6
  | REFUND => 7
  | CREATED => 8
  | PAID => 9
  | PENDING => 10
  | SUBSCRIPTION_APPROVED => 11
  | SUBSCRIPTION_DECLINED => 12
  | ON_HOLD => 13
  | WAITING_FOR_SHIPMENT => 14

end PaymentStatusSimple

/-- The pretix `OrderPayment` payment states used by the plugin
(PAYMENT_STATE_CREATED, _PENDING, _CONFIRMED, _CANCELED, _FAILED,
_REFUNDED). -/
inductive PaymentState
  | created
  | pending
  | confirmed
  | canceled
  | failed
  | refunded
deriving DecidableEq, Repr, Fintype

/-- One entry of a payment transaction's `related_transactions` list. -/
structure RelatedRef where
  id : String
  object : String
  hierarchy : String
deriving DecidableEq, Repr

/-- The `details` sub-object of a gateway payment transaction; the handler
reads `details.status_simple`, the raw wire code. -/
structure TransactionDetails where
  status_simple : Nat
deriving DecidableEq, Repr

/-- A gateway `Payment.Transactions` object, restricted to the fields the
plugin reads. -/
structure Transaction where
  id : String
  details : TransactionDetails
  amount : Int
  related_transactions : List RelatedRef
deriving DecidableEq, Repr

/-- A child reference inside a smart transaction's `transactions` list. -/
structure SmartTxRef where
  id : String
deriving DecidableEq, Repr

/-- A gateway `Smart.Transactions` object, restricted to the fields the
plugin reads. -/
structure SmartTransaction where
  id : String
  status : String
  transactions : List SmartTxRef
deriving DecidableEq, Repr

/-- The payment's persisted `info` snapshot:
`{smart_transaction, payment_transaction}`. -/
structure InfoData where
  smart_transaction : Option SmartTransaction
  payment_transaction : Option Transaction
deriving DecidableEq, Repr

/-- An `OrderRefund` created by `create_external_refund(amount, info)`:
its `info_data` holds the JSON-dumped gateway transaction, so
`info_data.get("id")` is that transaction's id. -/
structure Refund where
  amount : ℚ
  info : Transaction
deriving DecidableEq, Repr

/-- The persisted local `OrderPayment` record, restricted to the fields the
handlers read and write. -/
structure Payment where
  state : PaymentState
  info : InfoData
  amount : ℚ
  refunds : List Refund
deriving DecidableEq, Repr

/-- Errors raised by the API client: `RequestException` from the transport,
or `SecuconnectException` for a structured gateway error object. -/
inductive GatewayError
  | requestException
  | secuconnectException
deriving DecidableEq, Repr

/-- A Python exception escaping a handler. -/
inductive HandlerError
  | gateway : GatewayError → HandlerError
  | valueError : HandlerError
  | keyError : HandlerError
deriving DecidableEq, Repr

/-- The gateway RPC surface the webhook handler uses, as response oracles. -/
structure Gateway where
  fetch_payment_transaction_info : String → Except GatewayError Transaction
  fetch_payment_transaction_status_amount : String → Except GatewayError Int

/-- `SecuconnectMethod.amount_to_decimal(cents)`: minor units to the host's
decimal amount, with `places` decimal places for the event currency. -/
def amount_to_decimal (places : Nat) (cents : Int) : ℚ :=
  (cents : ℚ) / (10 : ℚ) ^ places

/-- Which arm of the webhook dispatch (views.py lines 204-252) ran. -/
inductive Branch
  | duplicate
  | accepted
  | markPending
  | denied
  | refundCheck
  | unexpected
deriving DecidableEq, Repr

/-- Result of one `_handle_payment_transaction_update` call: the persisted
payment record afterwards, the dispatch arm taken (`none` when an exception
fired before the dispatch), and the exception that escaped, if any. -/
structure StepResult where
  payment : Payment
  branch : Option Branch
  raised : Option HandlerError
deriving DecidableEq, Repr

/-- The related-transaction scan loop (views.py lines 263-279): for each
child `payment.transactions` reference not already keyed among the known
refund ids, fetch it and create an external refund of the absolute decimal
amount.  `known_refunds` is computed once before the loop and not updated
inside it.  A fetch failure aborts the loop with the refunds created so
far. -/
def scanRelated (gw : Gateway) (places : Nat) (knownIds : List String) :
    List RelatedRef → List Refund × Option HandlerError
  | [] => ([], none)
  | r :: rest =>
    if r.object = "payment.transactions" ∧ r.hierarchy = "child" ∧ r.id ∉ knownIds then
      match gw.fetch_payment_transaction_info r.id with
      | Except.error e => ([], some (HandlerError.gateway e))
      | Except.ok related =>
        let tail := scanRelated gw places knownIds rest
        (⟨|amount_to_decimal places related.amount|, related⟩ :: tail.1, tail.2)
    else
      scanRelated gw places knownIds rest

/-- `OrderPayment.confirm()` with the surrounding
`try ... except Quota.QuotaExceededException: pass`: pretix marks the payment
confirmed and saves it (with the assigned info) before the order-paid quota
check that may raise, so the swallowed quota failure leaves a confirmed
payment record either way. -/
def confirmPayment (quotaExceeded : Bool) (p : Payment) (info : InfoData) : Payment :=
  { p with info := info, state := PaymentState.confirmed }

/-- views.py lines 195-200: parse `old_status` from the stored snapshot's
`payment_transaction`, if present; the enum lookup raises on an unknown
stored code. -/
def computeOldStatus (p : Payment) : Except HandlerError (Option PaymentStatusSimple) :=
  match p.info.payment_transaction with
  | some old_tx =>
    match PaymentStatusSimple.ofCode old_tx.details.status_simple with
    | none => Except.error HandlerError.valueError
    | some s => Except.ok (some s)
  | none => Except.ok none

/-- The dispatch if/elif chain of views.py lines 204-252, including the
duplicate-status arm: payment record after the arm ran, the arm taken, and
the exception that fired inside it, if any. -/
def dispatchStatus (gw : Gateway) (places : Nat) (quotaExceeded : Bool)
    (p : Payment) (id : String) (transaction : Transaction)
    (status : PaymentStatusSimple) (old_status : Option PaymentStatusSimple) :
    Payment × Branch × Option HandlerError :=
  let info : InfoData := { p.info with payment_transaction := some transaction }
  if old_status = some status then
    (p, Branch.duplicate, none)
  else if status = PaymentStatusSimple.ACCEPTED then
    (confirmPayment quotaExceeded p info, Branch.accepted, none)
  else if status = PaymentStatusSimple.PENDING ∧ p.state = PaymentState.created then
    ({ p with info := info, state := PaymentState.pending }, Branch.markPending, none)
  else if status = PaymentStatusSimple.DENIED ∧
      (p.state = PaymentState.created ∨ p.state = PaymentState.pending) then
    ({ p with info := info, state := PaymentState.failed }, Branch.denied, none)
  else if (status = PaymentStatusSimple.ISSUE ∨ status = PaymentStatusSimple.REFUND ∨
      status = PaymentStatusSimple.VOID) ∧ p.state = PaymentState.confirmed then
    match gw.fetch_payment_transaction_status_amount id with
    | Except.error e => (p, Branch.refundCheck, some (HandlerError.gateway e))
    | Except.ok statusAmount =>
      let remaining := amount_to_decimal places statusAmount
      if remaining < p.amount then
        ({ p with refunds := p.refunds ++ [⟨p.amount - remaining, transaction⟩] },
          Branch.refundCheck, none)
      else
        (p, Branch.refundCheck, none)
  else
    ({ p with info := info }, Branch.unexpected, none)

/-- views.py lines 263-279: run the related-transaction scan on the payment
record left by the dispatch, with `known_refunds` keyed by each stored
refund's `info_data["id"]`. -/
def runScan (gw : Gateway) (places : Nat) (p1 : Payment)
    (transaction : Transaction) : Payment × Option HandlerError :=
  let knownIds := p1.refunds.map (fun r => r.info.id)
  let scanned := scanRelated gw places knownIds transaction.related_transactions
  ({ p1 with refunds := p1.refunds ++ scanned.1 }, scanned.2)

/-- `WebhookView._handle_payment_transaction_update` (views.py lines
190-279), as a function of the gateway oracles, the currency decimal places,
the host quota condition, the persisted payment record and the notified
transaction id. -/
def handle_payment_transaction_update (gw : Gateway) (places : Nat)
    (quotaExceeded : Bool) (p : Payment) (id : String) : StepResult :=
  match gw.fetch_payment_transaction_info id with
  | Except.error e => ⟨p, none, some (HandlerError.gateway e)⟩
  | Except.ok transaction =>
    match PaymentStatusSimple.ofCode transaction.details.status_simple with
    | none => ⟨p, none, some HandlerError.valueError⟩
    | some status =>
      match computeOldStatus p with
      | Except.error e => ⟨p, none, some e⟩
      | Except.ok old_status =>
        let dispatched :=
          dispatchStatus gw places quotaExceeded p id transaction status old_status
        match dispatched.2.2 with
        | some e => ⟨dispatched.1, some dispatched.2.1, some e⟩
        | none =>
          let scanned := runScan gw places dispatched.1 transaction
          ⟨scanned.1, some dispatched.2.1, scanned.2⟩

/-- One entry of the webhook POST body's `data` list. -/
structure EventObject where
  object : String
  id : String
deriving DecidableEq, Repr

/-- Result of `WebhookView.post`: payment record afterwards, escaped
exception if any, and the HTTP response body (`none` when an exception
escaped, in which case Django returns a 500 instead of the 200 "ok"). -/
structure WebhookResult where
  payment : Payment
  raised : Option HandlerError
  response : Option String
deriving DecidableEq, Repr

/-- `WebhookView.post` (views.py lines 178-188): iterate the batch, handle
`payment.transactions` entries, log and skip the rest; an exception from a
per-item handler aborts the loop and escapes. -/
def webhook_post (gw : Gateway) (places : Nat) (quotaExceeded : Bool)
    (p : Payment) : List EventObject → WebhookResult
  | [] => ⟨p, none, some "ok"⟩
  | e :: rest =>
    if e.object = "payment.transactions" then
      let step := handle_payment_transaction_update gw places quotaExceeded p e.id
      match step.raised with
      | some err => ⟨step.payment, some err, none⟩
      | none => webhook_post gw places quotaExceeded step.payment rest
    else
      webhook_post gw places quotaExceeded p rest

/-- Where a safe redirect out of `ReturnView` lands: the order page (with the
paid marker when the order is paid) or the event index. -/
inductive RedirectTarget
  | orderPage (paid : Bool)
  | eventIndex
deriving DecidableEq, Repr

/-- `SecuconnectOrderView._redirect_to_order` (views.py lines 151-173): if
the session's order-secret marker does not match the order's secret, show an
error and redirect to the event index; otherwise redirect to the order page,
with `?paid=yes` when the order is paid. -/
def redirect_to_order (sessionSecret : Option String) (orderSecret : String)
    (orderPaid : Bool) : RedirectTarget :=
  if sessionSecret = some orderSecret then RedirectTarget.orderPage orderPaid
  else RedirectTarget.eventIndex

/-- The gateway RPC surface `ReturnView.get` uses. -/
structure ReturnGateway where
  fetch_smart_transaction_info : String → Except GatewayError SmartTransaction
  fetch_payment_transaction_info : String → Except GatewayError Transaction

/-- Result of `ReturnView.get`: the persisted payment record afterwards, the
redirect issued (`none` when an exception escaped), and the escaped
exception, if any. -/
structure ReturnResult where
  payment : Payment
  redirect : Option RedirectTarget
  raised : Option HandlerError
deriving DecidableEq, Repr

/-- `ReturnView.get` (views.py lines 88-149).  `orderPaid` stands for
`order.status == STATUS_PAID` at redirect time, which is host-owned.
`self.payment.fail(...)` persists the given info with state FAILED. -/
def return_view_get (gw : ReturnGateway) (quotaExceeded : Bool) (p : Payment)
    (action : Option String) (sessionSecret : Option String)
    (orderSecret : String) (orderPaid : Bool) : ReturnResult :=
  match p.info.smart_transaction with
  | none => ⟨p, none, some HandlerError.keyError⟩
  | some st =>
    if p.state ≠ PaymentState.created then
      ⟨p, some (redirect_to_order sessionSecret orderSecret orderPaid), none⟩
    else
      let fetched : Except GatewayError InfoData :=
        match gw.fetch_smart_transaction_info st.id with
        | Except.error e => Except.error e
        | Except.ok smart =>
          match smart.transactions with
          | [] => Except.ok { p.info with smart_transaction := some smart }
          | c :: _ =>
            match gw.fetch_payment_transaction_info c.id with
            | Except.error e => Except.error e
            | Except.ok pt =>
              Except.ok { smart_transaction := some smart, payment_transaction := some pt }
      match fetched with
      | Except.error _ =>
        ⟨p, some (redirect_to_order sessionSecret orderSecret orderPaid), none⟩
      | Except.ok info =>
        let smartStatus := (info.smart_transaction.map (fun s => s.status)).getD ""
        let p1 :=
          if action = some "success" then
            if smartStatus = "ok" then
              confirmPayment quotaExceeded p info
            else if smartStatus = "pending" then
              { p with info := info, state := PaymentState.pending }
            else
              { p with info := info, state := PaymentState.failed }
          else if action = some "fail" then
            { p with info := info, state := PaymentState.failed }
          else if action = some "abort" then
            { p with info := info, state := PaymentState.canceled }
          else p
        ⟨p1, some (redirect_to_order sessionSecret orderSecret orderPaid), none⟩

/-- A JSON value, for the untyped transaction dictionaries the API client
returns and scrubs. -/
inductive JVal
  | str : String → JVal
  | num : Int → JVal
  | obj : List (String × JVal) → JVal
  | arr : List JVal → JVal
  | null : JVal
deriving Repr

/-- Python dictionary read `d[k]` on an association list (first binding). -/
def lookupField : List (String × JVal) → String → Option JVal
  | [], _ => none
  | kv :: rest, k => if kv.1 = k then some kv.2 else lookupField rest k

/-- Python dictionary write `d[k] = v`: replaces the existing binding in
place, else appends. -/
def setField : List (String × JVal) → String → JVal → List (String × JVal)
  | [], k, v => [(k, v)]
  | kv :: rest, k, v => if kv.1 = k then (k, v) :: rest else kv :: setField rest k v

/-- The dictionary comprehension inside `_scrub_customer_data`: keep the
values of `id` and `object`, replace every other value with the block
character. -/
def scrubItems (cust : List (String × JVal)) : List (String × JVal) :=
  cust.map (fun kv => (kv.1, if kv.1 = "id" ∨ kv.1 = "object" then kv.2 else JVal.str "█"))

/-- `SecuconnectAPIClient._scrub_customer_data` (api_client.py lines
125-133): if the object has a `customer` dictionary, replace it by the
scrubbed dictionary; a missing `customer` key or a non-dictionary value
raises KeyError/AttributeError/TypeError, which is caught and ignored. -/
def scrub_customer_data (td : List (String × JVal)) : List (String × JVal) :=
  match lookupField td "customer" with
  | some (JVal.obj cust) => setField td "customer" (JVal.obj (scrubItems cust))
  | _ => td

/-- The raw (pre-scrub) gateway JSON responses. -/
structure RawAPI where
  get_smart_transaction : String → List (String × JVal)
  get_payment_transaction : String → List (String × JVal)

/-- `SecuconnectAPIClient.fetch_smart_transaction_info` (api_client.py lines
135-138): the raw response passed through `_scrub_customer_data`. -/
def fetch_smart_transaction_info (api : RawAPI) (id : String) : List (String × JVal) :=
  scrub_customer_data (api.get_smart_transaction id)

/-- `SecuconnectAPIClient.fetch_payment_transaction_info` (api_client.py
lines 140-143): the raw response passed through `_scrub_customer_data`. -/
def fetch_payment_transaction_info (api : RawAPI) (id : String) : List (String × JVal) :=
  scrub_customer_data (api.get_payment_transaction id)

/-! ### Helper lemmas -/

/-- Unfolding of the webhook handler once the fetch and both enum lookups
succeed: dispatch, then (if no exception fired) the related-transaction
scan. -/
theorem handle_unfold (gw : Gateway) (places : Nat) (q : Bool) (p : Payment)
    (id : String) (tx : Transaction) (s : PaymentStatusSimple)
    (os : Option PaymentStatusSimple)
    (hfetch : gw.fetch_payment_transaction_info id = Except.ok tx)
    (hcode : PaymentStatusSimple.ofCode tx.details.status_simple = some s)
    (hold : computeOldStatus p = Except.ok os) :
    handle_payment_transaction_update gw places q p id =
      match (dispatchStatus gw places q p id tx s os).2.2 with
      | some e =>
        ⟨(dispatchStatus gw places q p id tx s os).1,
          some (dispatchStatus gw places q p id tx s os).2.1, some e⟩
      | none =>
        ⟨(runScan gw places (dispatchStatus gw places q p id tx s os).1 tx).1,
          some (dispatchStatus gw places q p id tx s os).2.1,
          (runScan gw places (dispatchStatus gw places q p id tx s os).1 tx).2⟩ := by
  simp only [handle_payment_transaction_update, hfetch, hcode, hold]

/-- In the duplicate-status case the dispatch is a no-op tagged
`duplicate`. -/
theorem dispatch_duplicate (gw : Gateway) (places : Nat) (q : Bool)
    (p : Payment) (id : String) (tx : Transaction) (s : PaymentStatusSimple) :
    dispatchStatus gw places q p id tx s (some s) = (p, Branch.duplicate, none) := by
  simp [dispatchStatus]

/-! ### C2 -/

/-- C2: when the fetched transaction's `status_simple` equals the status in
the stored snapshot, the handler takes the duplicate arm: the payment state,
stored info snapshot and amount are untouched and no amount-based refund is
created, yet the related-transaction scan still runs, appending exactly its
discovered refunds and propagating only its exception. -/
theorem duplicate_status_scan_still_runs (gw : Gateway) (places : Nat)
    (q : Bool) (p : Payment) (id : String) (tx old_tx : Transaction)
    (s : PaymentStatusSimple)
    (hfetch : gw.fetch_payment_transaction_info id = Except.ok tx)
    (hcode : PaymentStatusSimple.ofCode tx.details.status_simple = some s)
    (hptx : p.info.payment_transaction = some old_tx)
    (hsame : old_tx.details.status_simple = tx.details.status_simple) :
    (handle_payment_transaction_update gw places q p id).branch =
        some Branch.duplicate ∧
    (handle_payment_transaction_update gw places q p id).payment.state = p.state ∧
    (handle_payment_transaction_update gw places q p id).payment.info = p.info ∧
    (handle_payment_transaction_update gw places q p id).payment.amount = p.amount ∧
    (handle_payment_transaction_update gw places q p id).payment.refunds =
      p.refunds ++ (scanRelated gw places (p.refunds.map (fun r => r.info.id))
        tx.related_transactions).1 ∧
    (handle_payment_transaction_update gw places q p id).raised =
      (scanRelated gw places (p.refunds.map (fun r => r.info.id))
        tx.related_transactions).2 := by
  have hold : computeOldStatus p = Except.ok (some s) := by
    simp [computeOldStatus, hptx, hsame, hcode]
  rw [handle_unfold gw places q p id tx s (some s) hfetch hcode hold,
    dispatch_duplicate]
  simp [runScan]

/-- Concrete transaction used by witnesses: id PT1, status code 1
(ACCEPTED), amount 1000 minor units, no related transactions. -/
def txAccepted : Transaction := ⟨"PT1", ⟨1⟩, 1000, []⟩

/-- A gateway answering every info fetch with `txAccepted` and every
checkStatus fetch with amount 1000. -/
def gwAccepted : Gateway :=
  ⟨fun _ => Except.ok txAccepted, fun _ => Except.ok 1000⟩

/-- A confirmed payment over 10.00 whose stored snapshot is `txAccepted`. -/
def payDupAccepted : Payment :=
  ⟨PaymentState.confirmed, ⟨none, some txAccepted⟩, 10, []⟩

/-- Witness for C2 at a concrete duplicate delivery. -/
theorem duplicate_status_scan_still_runs_witness :
    (handle_payment_transaction_update gwAccepted 2 false payDupAccepted "PT1").branch =
        some Branch.duplicate ∧
    (handle_payment_transaction_update gwAccepted 2 false payDupAccepted "PT1").payment.state =
      payDupAccepted.state ∧
    (handle_payment_transaction_update gwAccepted 2 false payDupAccepted "PT1").payment.info =
      payDupAccepted.info ∧
    (handle_payment_transaction_update gwAccepted 2 false payDupAccepted "PT1").payment.amount =
      payDupAccepted.amount ∧
    (handle_payment_transaction_update gwAccepted 2 false payDupAccepted "PT1").payment.refunds =
      payDupAccepted.refunds ++
        (scanRelated gwAccepted 2 (payDupAccepted.refunds.map (fun r => r.info.id))
          txAccepted.related_transactions).1 ∧
    (handle_payment_transaction_update gwAccepted 2 false payDupAccepted "PT1").raised =
      (scanRelated gwAccepted 2 (payDupAccepted.refunds.map (fun r => r.info.id))
        txAccepted.related_transactions).2 :=
  duplicate_status_scan_still_runs gwAccepted 2 false payDupAccepted "PT1"
    txAccepted txAccepted PaymentStatusSimple.ACCEPTED rfl rfl rfl rfl

/-! ### C5 -/

/-- C5: on a changed status, the dispatch obeys the table's preconditions:
ACCEPTED confirms from any local state with any quota outcome swallowed
(no exception beyond the scan's own), PENDING marks pending only from
CREATED (otherwise the unexpected arm runs and the state is untouched), and
DENIED fails the payment only from CREATED or PENDING (otherwise the
unexpected arm runs and the state is untouched). -/
theorem dispatch_table_preconditions (gw : Gateway) (places : Nat) (q : Bool)
    (p : Payment) (id : String) (tx : Transaction) (s : PaymentStatusSimple)
    (os : Option PaymentStatusSimple)
    (hfetch : gw.fetch_payment_transaction_info id = Except.ok tx)
    (hcode : PaymentStatusSimple.ofCode tx.details.status_simple = some s)
    (hold : computeOldStatus p = Except.ok os)
    (hdup : os ≠ some s) :
    (s = PaymentStatusSimple.ACCEPTED →
      (handle_payment_transaction_update gw places q p id).branch =
          some Branch.accepted ∧
      (handle_payment_transaction_update gw places q p id).payment.state =
        PaymentState.confirmed ∧
      (handle_payment_transaction_update gw places q p id).raised =
        (scanRelated gw places (p.refunds.map (fun r => r.info.id))
          tx.related_transactions).2) ∧
    (s = PaymentStatusSimple.PENDING →
      (p.state = PaymentState.created →
        (handle_payment_transaction_update gw places q p id).branch =
            some Branch.markPending ∧
        (handle_payment_transaction_update gw places q p id).payment.state =
          PaymentState.pending) ∧
      (p.state ≠ PaymentState.created →
        (handle_payment_transaction_update gw places q p id).branch =
            some Branch.unexpected ∧
        (handle_payment_transaction_update gw places q p id).payment.state =
          p.state)) ∧
    (s = PaymentStatusSimple.DENIED →
      ((p.state = PaymentState.created ∨ p.state = PaymentState.pending) →
        (handle_payment_transaction_update gw places q p id).branch =
            some Branch.denied ∧
        (handle_payment_transaction_update gw places q p id).payment.state =
          PaymentState.failed) ∧
      (¬ (p.state = PaymentState.created ∨ p.state = PaymentState.pending) →
        (handle_payment_transaction_update gw places q p id).branch =
            some Branch.unexpected ∧
        (handle_payment_transaction_update gw places q p id).payment.state =
          p.state)) := by
  have h := handle_unfold gw places q p id tx s os hfetch hcode hold
  refine ⟨?_, ?_, ?_⟩
  · intro hs
    subst hs
    rw [h]
    simp [dispatchStatus, hdup, confirmPayment, runScan]
  · intro hs
    subst hs
    constructor
    · intro hc
      rw [h]
      simp [dispatchStatus, hdup, hc, runScan]
    · intro hc
      rw [h]
      simp [dispatchStatus, hdup, hc, runScan]
  · intro hs
    subst hs
    constructor
    · intro hc
      rw [h]
      simp [dispatchStatus, hdup, hc, runScan]
    · intro hc
      rw [h]
      simp [dispatchStatus, hdup, hc, runScan]

/-- A freshly created payment over 10.00 with an empty snapshot. -/
def payCreated : Payment := ⟨PaymentState.created, ⟨none, none⟩, 10, []⟩

/-- Witness for C5 at a concrete first delivery of an ACCEPTED status. -/
theorem dispatch_table_preconditions_witness :
    (PaymentStatusSimple.ACCEPTED = PaymentStatusSimple.ACCEPTED →
      (handle_payment_transaction_update gwAccepted 2 false payCreated "PT1").branch =
          some Branch.accepted ∧
      (handle_payment_transaction_update gwAccepted 2 false payCreated "PT1").payment.state =
        PaymentState.confirmed ∧
      (handle_payment_transaction_update gwAccepted 2 false payCreated "PT1").raised =
        (scanRelated gwAccepted 2 (payCreated.refunds.map (fun r => r.info.id))
          txAccepted.related_transactions).2) ∧
    (PaymentStatusSimple.ACCEPTED = PaymentStatusSimple.PENDING →
      (payCreated.state = PaymentState.created →
        (handle_payment_transaction_update gwAccepted 2 false payCreated "PT1").branch =
            some Branch.markPending ∧
        (handle_payment_transaction_update gwAccepted 2 false payCreated "PT1").payment.state =
          PaymentState.pending) ∧
      (payCreated.state ≠ PaymentState.created →
        (handle_payment_transaction_update gwAccepted 2 false payCreated "PT1").branch =
            some Branch.unexpected ∧
        (handle_payment_transaction_update gwAccepted 2 false payCreated "PT1").payment.state =
          payCreated.state)) ∧
    (PaymentStatusSimple.ACCEPTED = PaymentStatusSimple.DENIED →
      ((payCreated.state = PaymentState.created ∨ payCreated.state = PaymentState.pending) →
        (handle_payment_transaction_update gwAccepted 2 false payCreated "PT1").branch =
            some Branch.denied ∧
        (handle_payment_transaction_update gwAccepted 2 false payCreated "PT1").payment.state =
          PaymentState.failed) ∧
      (¬ (payCreated.state = PaymentState.created ∨ payCreated.state = PaymentState.pending) →
        (handle_payment_transaction_update gwAccepted 2 false payCreated "PT1").branch =
            some Branch.unexpected ∧
        (handle_payment_transaction_update gwAccepted 2 false payCreated "PT1").payment.state =
          payCreated.state)) :=
  dispatch_table_preconditions gwAccepted 2 false payCreated "PT1" txAccepted
    PaymentStatusSimple.ACCEPTED none rfl rfl rfl (by simp)

/-! ### C6 -/

/-- C6 (amended): for a fetched transaction whose `status_simple` is in the
known vocabulary but whose status+state combination matches no dispatch row,
and which is not a duplicate, the handler takes the unexpected arm: nothing
is raised by the dispatch itself, the snapshot is persisted, the local state
is unchanged, and only the related-transaction scan may still raise or add
refunds. -/
theorem unexpected_combination_logged_and_persisted (gw : Gateway)
    (places : Nat) (q : Bool) (p : Payment) (id : String) (tx : Transaction)
    (s : PaymentStatusSimple) (os : Option PaymentStatusSimple)
    (hfetch : gw.fetch_payment_transaction_info id = Except.ok tx)
    (hcode : PaymentStatusSimple.ofCode tx.details.status_simple = some s)
    (hold : computeOldStatus p = Except.ok os)
    (hdup : os ≠ some s)
    (hacc : s ≠ PaymentStatusSimple.ACCEPTED)
    (hpen : ¬ (s = PaymentStatusSimple.PENDING ∧ p.state = PaymentState.created))
    (hden : ¬ (s = PaymentStatusSimple.DENIED ∧
      (p.state = PaymentState.created ∨ p.state = PaymentState.pending)))
    (href : ¬ ((s = PaymentStatusSimple.ISSUE ∨ s = PaymentStatusSimple.REFUND ∨
      s = PaymentStatusSimple.VOID) ∧ p.state = PaymentState.confirmed)) :
    (handle_payment_transaction_update gw places q p id).branch =
        some Branch.unexpected ∧
    (handle_payment_transaction_update gw places q p id).payment.state = p.state ∧
    (handle_payment_transaction_update gw places q p id).payment.info =
      { p.info with payment_transaction := some tx } ∧
    (handle_payment_transaction_update gw places q p id).payment.refunds =
      p.refunds ++ (scanRelated gw places (p.refunds.map (fun r => r.info.id))
        tx.related_transactions).1 ∧
    (handle_payment_transaction_update gw places q p id).raised =
      (scanRelated gw places (p.refunds.map (fun r => r.info.id))
        tx.related_transactions).2 := by
  rw [handle_unfold gw places q p id tx s os hfetch hcode hold]
  simp [dispatchStatus, hdup, hacc, hpen, hden, href, runScan]

/-- Transaction whose wire status code 9 (PAID) matches no dispatch row on a
created payment. -/
def txPaid : Transaction := ⟨"PT1", ⟨9⟩, 1000, []⟩

/-- Gateway answering with `txPaid`. -/
def gwPaid : Gateway := ⟨fun _ => Except.ok txPaid, fun _ => Except.ok 1000⟩

/-- Witness for the amended C6: a PAID report on a created payment persists
the snapshot and changes nothing else. -/
theorem unexpected_combination_logged_and_persisted_witness :
    (handle_payment_transaction_update gwPaid 2 false payCreated "PT1").branch =
        some Branch.unexpected ∧
    (handle_payment_transaction_update gwPaid 2 false payCreated "PT1").payment.state =
      payCreated.state ∧
    (handle_payment_transaction_update gwPaid 2 false payCreated "PT1").payment.info =
      { payCreated.info with payment_transaction := some txPaid } ∧
    (handle_payment_transaction_update gwPaid 2 false payCreated "PT1").payment.refunds =
      payCreated.refunds ++ (scanRelated gwPaid 2
        (payCreated.refunds.map (fun r => r.info.id)) txPaid.related_transactions).1 ∧
    (handle_payment_transaction_update gwPaid 2 false payCreated "PT1").raised =
      (scanRelated gwPaid 2 (payCreated.refunds.map (fun r => r.info.id))
        txPaid.related_transactions).2 :=
  unexpected_combination_logged_and_persisted gwPaid 2 false payCreated "PT1"
    txPaid PaymentStatusSimple.PAID none rfl rfl rfl (by simp) (by simp)
    (by simp) (by simp) (by simp)

/-- Transaction with a wire status code outside the known vocabulary. -/
def txUnknownCode : Transaction := ⟨"PT1", ⟨99⟩, 1000, []⟩

/-- Gateway answering with `txUnknownCode`. -/
def gwUnknownCode : Gateway :=
  ⟨fun _ => Except.ok txUnknownCode, fun _ => Except.ok 1000⟩

/-- Counterexample to C6 as stated: a status_simple code outside the known
vocabulary makes the enum lookup raise ValueError before any dispatch, so
the handler does raise, persists nothing and takes no arm. -/
theorem unknown_status_code_raises :
    (handle_payment_transaction_update gwUnknownCode 2 false payCreated "PT1").raised =
      some HandlerError.valueError ∧
    (handle_payment_transaction_update gwUnknownCode 2 false payCreated "PT1").branch =
      none ∧
    (handle_payment_transaction_update gwUnknownCode 2 false payCreated "PT1").payment =
      payCreated := by
  refine ⟨rfl, rfl, rfl⟩

/-! ### C1 -/

/-- Evaluation of the ISSUE/REFUND/VOID arm when the remaining amount
reported by checkStatus is below the authorized amount: an external refund
of the difference is created, and the stored info snapshot is not
touched. -/
theorem dispatch_refund_lt (gw : Gateway) (places : Nat) (q : Bool)
    (p : Payment) (id : String) (tx : Transaction) (s : PaymentStatusSimple)
    (os : Option PaymentStatusSimple) (a : Int)
    (hdup : os ≠ some s)
    (hs : s = PaymentStatusSimple.ISSUE ∨ s = PaymentStatusSimple.REFUND ∨
      s = PaymentStatusSimple.VOID)
    (hconf : p.state = PaymentState.confirmed)
    (hcs : gw.fetch_payment_transaction_status_amount id = Except.ok a)
    (hlt : amount_to_decimal places a < p.amount) :
    dispatchStatus gw places q p id tx s os =
      ({ p with refunds := p.refunds ++
          [⟨p.amount - amount_to_decimal places a, tx⟩] },
        Branch.refundCheck, none) := by
  rcases hs with h | h | h <;> subst h <;>
    simp [dispatchStatus, hdup, hconf, hcs, hlt]

/-- C1 (amended): on a changed status, the handler persists the updated
snapshot in the ACCEPTED, PENDING, DENIED and unexpected arms, i.e. in every
arm except the ISSUE/REFUND/VOID refund arm; the duplicate-status arm and
the refund arm leave the stored snapshot untouched (see the
counterexample). -/
theorem snapshot_persisted_outside_refund_and_duplicate_arms (gw : Gateway)
    (places : Nat) (q : Bool) (p : Payment) (id : String) (tx : Transaction)
    (s : PaymentStatusSimple) (os : Option PaymentStatusSimple)
    (hfetch : gw.fetch_payment_transaction_info id = Except.ok tx)
    (hcode : PaymentStatusSimple.ofCode tx.details.status_simple = some s)
    (hold : computeOldStatus p = Except.ok os)
    (hdup : os ≠ some s)
    (href : ¬ ((s = PaymentStatusSimple.ISSUE ∨ s = PaymentStatusSimple.REFUND ∨
      s = PaymentStatusSimple.VOID) ∧ p.state = PaymentState.confirmed)) :
    (handle_payment_transaction_update gw places q p id).payment.info =
      { p.info with payment_transaction := some tx } := by
  rw [handle_unfold gw places q p id tx s os hfetch hcode hold]
  by_cases h1 : s = PaymentStatusSimple.ACCEPTED
  · subst h1
    simp [dispatchStatus, hdup, confirmPayment, runScan]
  · by_cases h2 : s = PaymentStatusSimple.PENDING ∧ p.state = PaymentState.created
    · obtain ⟨hs2, hc2⟩ := h2
      subst hs2
      simp [dispatchStatus, hdup, hc2, runScan]
    · by_cases h3 : s = PaymentStatusSimple.DENIED ∧
          (p.state = PaymentState.created ∨ p.state = PaymentState.pending)
      · obtain ⟨hs3, hc3⟩ := h3
        subst hs3
        simp [dispatchStatus, hdup, hc3, runScan]
      · simp [dispatchStatus, hdup, h1, h2, h3, href, runScan]

/-- Witness for the amended C1: the PAID/created delivery persists the
fresh snapshot. -/
theorem snapshot_persisted_outside_refund_and_duplicate_arms_witness :
    (handle_payment_transaction_update gwPaid 2 false payCreated "PT1").payment.info =
      { payCreated.info with payment_transaction := some txPaid } :=
  snapshot_persisted_outside_refund_and_duplicate_arms gwPaid 2 false
    payCreated "PT1" txPaid PaymentStatusSimple.PAID none rfl rfl rfl
    (by simp) (by simp)

/-- The fetched transaction of a duplicate delivery whose content differs
from the stored snapshot (same status code 1, different amount). -/
def txAccepted900 : Transaction := ⟨"PT1", ⟨1⟩, 900, []⟩

/-- Gateway answering with `txAccepted900`. -/
def gwAccepted900 : Gateway :=
  ⟨fun _ => Except.ok txAccepted900, fun _ => Except.ok 1000⟩

/-- The transaction reporting status REFUND (code 7). -/
def txRefund : Transaction := ⟨"PT1", ⟨7⟩, 1000, []⟩

/-- Gateway answering info fetches with `txRefund` and checkStatus with a
remaining amount of 700 minor units. -/
def gwRefund : Gateway := ⟨fun _ => Except.ok txRefund, fun _ => Except.ok 700⟩

/-- Counterexample to C1 as stated: in the duplicate-status arm the freshly
fetched snapshot `txAccepted900` is not persisted (the stored snapshot stays
`txAccepted`, which differs), and in the ISSUE/REFUND/VOID arm the freshly
fetched snapshot `txRefund` is not persisted either, although the arm did
run (it created a refund). -/
theorem snapshot_not_persisted_counterexample :
    (handle_payment_transaction_update gwAccepted900 2 false payDupAccepted "PT1").payment.info.payment_transaction =
      some txAccepted ∧
    txAccepted ≠ txAccepted900 ∧
    (handle_payment_transaction_update gwRefund 2 false payDupAccepted "PT1").payment.info.payment_transaction =
      some txAccepted ∧
    txAccepted ≠ txRefund ∧
    (handle_payment_transaction_update gwRefund 2 false payDupAccepted "PT1").branch =
      some Branch.refundCheck ∧
    (handle_payment_transaction_update gwRefund 2 false payDupAccepted "PT1").payment.refunds ≠
      [] := by
  have hlt : amount_to_decimal 2 700 < payDupAccepted.amount := by
    norm_num [amount_to_decimal, payDupAccepted]
  have h2 := handle_unfold gwRefund 2 false payDupAccepted "PT1" txRefund
    PaymentStatusSimple.REFUND (some PaymentStatusSimple.ACCEPTED) rfl rfl rfl
  rw [dispatch_refund_lt gwRefund 2 false payDupAccepted "PT1" txRefund
    PaymentStatusSimple.REFUND (some PaymentStatusSimple.ACCEPTED) 700
    (by simp) (Or.inr (Or.inl rfl)) rfl rfl hlt] at h2
  refine ⟨rfl, by decide, ?_, by decide, ?_, ?_⟩ <;>
    (rw [h2]; try simp [runScan, scanRelated, txRefund, payDupAccepted])

/-! ### C3 -/

/-- The payment record after the first REFUND delivery: still confirmed,
snapshot still `txAccepted`, one refund of 3.00 created. -/
def payRefundOnce : Payment :=
  ⟨PaymentState.confirmed, ⟨none, some txAccepted⟩, 10, [⟨3, txRefund⟩]⟩

/-- C3 evaluation at the spec's own scenario (authorized 1000 minor units,
checkStatus remaining 700): the first REFUND delivery creates one refund of
3.00 as required, but because the refund arm never persists the updated
snapshot, a second delivery reporting the identical status is not recognized
as a duplicate and creates a second refund of 3.00 through the same arm. -/
theorem second_identical_refund_report_duplicates_refund :
    (handle_payment_transaction_update gwRefund 2 false payDupAccepted "PT1").payment =
      payRefundOnce ∧
    (handle_payment_transaction_update gwRefund 2 false payRefundOnce "PT1").payment.refunds =
      [⟨3, txRefund⟩, ⟨3, txRefund⟩] := by
  have hlt : amount_to_decimal 2 700 < payDupAccepted.amount := by
    norm_num [amount_to_decimal, payDupAccepted]
  have hamt : (10 : ℚ) - amount_to_decimal 2 700 = 3 := by
    norm_num [amount_to_decimal]
  have hlt1 : amount_to_decimal 2 700 < payRefundOnce.amount := by
    norm_num [amount_to_decimal, payRefundOnce]
  have h1 := handle_unfold gwRefund 2 false payDupAccepted "PT1" txRefund
    PaymentStatusSimple.REFUND (some PaymentStatusSimple.ACCEPTED) rfl rfl rfl
  rw [dispatch_refund_lt gwRefund 2 false payDupAccepted "PT1" txRefund
    PaymentStatusSimple.REFUND (some PaymentStatusSimple.ACCEPTED) 700
    (by simp) (Or.inr (Or.inl rfl)) rfl rfl hlt] at h1
  have h2 := handle_unfold gwRefund 2 false payRefundOnce "PT1" txRefund
    PaymentStatusSimple.REFUND (some PaymentStatusSimple.ACCEPTED) rfl rfl rfl
  rw [dispatch_refund_lt gwRefund 2 false payRefundOnce "PT1" txRefund
    PaymentStatusSimple.REFUND (some PaymentStatusSimple.ACCEPTED) 700
    (by simp) (Or.inr (Or.inl rfl)) rfl rfl hlt1] at h2
  constructor
  · rw [h1]
    simp [runScan, scanRelated, txRefund, hamt, payDupAccepted, payRefundOnce]
  · rw [h2]
    simp [runScan, scanRelated, txRefund, hamt, payRefundOnce]

/-! ### C10 -/

/-- The related-transactions child entry pointing at the gateway-side
refund. -/
def childRef : RelatedRef := ⟨"PT2", "payment.transactions", "child"⟩

/-- The parent transaction reporting REFUND, listing the refunding child. -/
def txRefundRel : Transaction := ⟨"PT1", ⟨7⟩, 1000, [childRef]⟩

/-- The refunding child transaction of -300 minor units. -/
def txChild : Transaction := ⟨"PT2", ⟨7⟩, -300, []⟩

/-- Gateway serving parent, child and a checkStatus remaining of 700. -/
def gwRefundRel : Gateway :=
  ⟨fun i => if i = "PT2" then Except.ok txChild else Except.ok txRefundRel,
    fun _ => Except.ok 700⟩

/-- C10: the amount-comparison arm stores the parent snapshot (id PT1) in
the refund it creates, so the scan's deduplication (which keys refunds by
their stored info id) does not recognize the child PT2 and creates a second
refund for the same gateway-side refund in the very same delivery. -/
theorem refund_arm_does_not_suppress_scan_refund :
    (handle_payment_transaction_update gwRefundRel 2 false payDupAccepted "PT1").payment.refunds =
      [⟨3, txRefundRel⟩, ⟨3, txChild⟩] ∧
    (handle_payment_transaction_update gwRefundRel 2 false payDupAccepted "PT1").branch =
      some Branch.refundCheck ∧
    (handle_payment_transaction_update gwRefundRel 2 false payDupAccepted "PT1").raised =
      none := by
  have hlt : amount_to_decimal 2 700 < payDupAccepted.amount := by
    norm_num [amount_to_decimal, payDupAccepted]
  have hamt : (10 : ℚ) - amount_to_decimal 2 700 = 3 := by
    norm_num [amount_to_decimal]
  have habs : |amount_to_decimal 2 (-300 : Int)| = 3 := by
    rw [abs_of_nonpos] <;> norm_num [amount_to_decimal]
  have h1 := handle_unfold gwRefundRel 2 false payDupAccepted "PT1" txRefundRel
    PaymentStatusSimple.REFUND (some PaymentStatusSimple.ACCEPTED) rfl rfl rfl
  rw [dispatch_refund_lt gwRefundRel 2 false payDupAccepted "PT1" txRefundRel
    PaymentStatusSimple.REFUND (some PaymentStatusSimple.ACCEPTED) 700
    (by simp) (Or.inr (Or.inl rfl)) rfl rfl hlt] at h1
  rw [h1]
  refine ⟨?_, rfl, ?_⟩ <;>
    simp [runScan, scanRelated, txRefundRel, txChild, childRef, gwRefundRel,
      payDupAccepted, hamt, habs]

/-! ### C4 -/

/-- C4 (amended): the webhook endpoint responds 200 "ok" exactly when no
actionable item's processing raised an exception; entries whose object type
is not `payment.transactions` are logged and skipped, affecting neither the
payment record nor the response.  A per-item failure (for example a gateway
fetch failure) aborts the batch and no "ok" response is produced. -/
theorem webhook_ok_iff_no_item_raised (gw : Gateway) (places : Nat)
    (q : Bool) (p : Payment) (data : List EventObject) :
    ((webhook_post gw places q p data).response = some "ok" ↔
      (webhook_post gw places q p data).raised = none) ∧
    (∀ e rest, e.object ≠ "payment.transactions" →
      webhook_post gw places q p (e :: rest) = webhook_post gw places q p rest) := by
  constructor
  · induction data generalizing p with
    | nil => simp [webhook_post]
    | cons e rest ih =>
      by_cases he : e.object = "payment.transactions"
      · simp only [webhook_post, he, if_pos]
        cases (handle_payment_transaction_update gw places q p e.id).raised with
        | some err => simp
        | none => exact ih _
      · simpa [webhook_post, he] using ih p
  · intro e rest he
    simp [webhook_post, he]

/-- An unrelated batch entry. -/
def evUnknown : EventObject := ⟨"smart.checkins", "X1"⟩

/-- An actionable batch entry for transaction PT1. -/
def evPT1 : EventObject := ⟨"payment.transactions", "PT1"⟩

/-- Witness for the amended C4: on a batch of one skipped and one actionable
entry against a working gateway, the iff holds and the skip equation fires. -/
theorem webhook_ok_iff_no_item_raised_witness :
    ((webhook_post gwPaid 2 false payCreated [evUnknown, evPT1]).response = some "ok" ↔
      (webhook_post gwPaid 2 false payCreated [evUnknown, evPT1]).raised = none) ∧
    webhook_post gwPaid 2 false payCreated [evUnknown, evPT1] =
      webhook_post gwPaid 2 false payCreated [evPT1] :=
  ⟨(webhook_ok_iff_no_item_raised gwPaid 2 false payCreated [evUnknown, evPT1]).1,
    (webhook_ok_iff_no_item_raised gwPaid 2 false payCreated [evUnknown, evPT1]).2
      evUnknown [evPT1] (by decide)⟩

/-- A gateway whose info fetches fail with a transport error. -/
def gwDown : Gateway :=
  ⟨fun _ => Except.error GatewayError.requestException,
    fun _ => Except.error GatewayError.requestException⟩

/-- Counterexample to C4 as stated: a gateway fetch failure for an
actionable id is not swallowed; the exception escapes `post` and no
200 "ok" response is returned. -/
theorem webhook_gateway_failure_not_ok :
    (webhook_post gwDown 2 false payCreated [evPT1]).response = none ∧
    (webhook_post gwDown 2 false payCreated [evPT1]).raised =
      some (HandlerError.gateway GatewayError.requestException) := by
  exact ⟨rfl, rfl⟩

/-! ### C9 -/

/-- C9 (amended): a redirect-return request arriving while the local payment
state is not CREATED takes the guard path, provided the stored info contains
the smart transaction id: the result does not depend on the gateway at all
(no fetch is performed), every field of the payment record is unchanged,
nothing is raised, and the safe redirect goes to the order page when the
session carries the order secret and to the event index otherwise. -/
theorem return_guard_no_fetch_no_change (gw gw2 : ReturnGateway)
    (q q2 : Bool) (p : Payment) (action action2 : Option String)
    (sessionSecret : Option String) (orderSecret : String) (orderPaid : Bool)
    (st : SmartTransaction)
    (hsmart : p.info.smart_transaction = some st)
    (hstate : p.state ≠ PaymentState.created) :
    return_view_get gw q p action sessionSecret orderSecret orderPaid =
      ⟨p, some (redirect_to_order sessionSecret orderSecret orderPaid), none⟩ ∧
    return_view_get gw q p action sessionSecret orderSecret orderPaid =
      return_view_get gw2 q2 p action2 sessionSecret orderSecret orderPaid := by
  have h : ∀ (g : ReturnGateway) (qq : Bool) (a : Option String),
      return_view_get g qq p a sessionSecret orderSecret orderPaid =
        ⟨p, some (redirect_to_order sessionSecret orderSecret orderPaid), none⟩ := by
    intro g qq a
    simp [return_view_get, hsmart, hstate]
  exact ⟨h gw q action, (h gw q action).trans (h gw2 q2 action2).symm⟩

/-- Concrete smart transaction for the return-view fixtures. -/
def stOk : SmartTransaction := ⟨"ST1", "ok", []⟩

/-- A pending payment whose info contains the smart transaction. -/
def payPendingSmart : Payment :=
  ⟨PaymentState.pending, ⟨some stOk, some txAccepted⟩, 10, []⟩

/-- A pending payment whose info lacks the smart transaction. -/
def payPendingNoSmart : Payment :=
  ⟨PaymentState.pending, ⟨none, some txAccepted⟩, 10, []⟩

/-- A return-view gateway that fails every fetch; the guard path must never
consult it. -/
def rgwDown : ReturnGateway :=
  ⟨fun _ => Except.error GatewayError.requestException,
    fun _ => Except.error GatewayError.requestException⟩

/-- Witness for the amended C9 at a concrete guarded request with a
matching session. -/
theorem return_guard_no_fetch_no_change_witness :
    return_view_get rgwDown false payPendingSmart (some "success")
        (some "SECRET") "SECRET" false =
      ⟨payPendingSmart, some (redirect_to_order (some "SECRET") "SECRET" false), none⟩ ∧
    return_view_get rgwDown false payPendingSmart (some "success")
        (some "SECRET") "SECRET" false =
      return_view_get rgwDown true payPendingSmart (some "fail")
        (some "SECRET") "SECRET" false :=
  return_guard_no_fetch_no_change rgwDown rgwDown false true payPendingSmart
    (some "success") (some "fail") (some "SECRET") "SECRET" false stOk rfl
    (by decide)

/-- Counterexample to C9 as stated: with no matching session marker the
guard redirects to the event index, not to the order page; and when the
stored info lacks the smart transaction id, the handler raises KeyError
before the guard. -/
theorem return_guard_counterexample :
    (return_view_get rgwDown false payPendingSmart (some "success") none
        "SECRET" false).redirect = some RedirectTarget.eventIndex ∧
    RedirectTarget.eventIndex ≠ RedirectTarget.orderPage false ∧
    RedirectTarget.eventIndex ≠ RedirectTarget.orderPage true ∧
    (return_view_get rgwDown false payPendingNoSmart (some "success") none
        "SECRET" false).raised = some HandlerError.keyError := by
  exact ⟨rfl, by decide, by decide, rfl⟩

/-! ### C7 -/

/-- Reading back a key just written by `setField` yields the new value,
provided the key was present. -/
theorem lookup_setField (td : List (String × JVal)) (k : String) (v w : JVal)
    (h : lookupField td k = some w) :
    lookupField (setField td k v) k = some v := by
  induction td with
  | nil => simp [lookupField] at h
  | cons kv rest ih =>
    by_cases hk : kv.1 = k
    · simp [lookupField, setField, hk]
    · simp [lookupField, setField, hk] at h ⊢
      exact ih h

/-- Writing the same key twice keeps only the last value. -/
theorem setField_setField (td : List (String × JVal)) (k : String) (v w : JVal) :
    setField (setField td k v) k w = setField td k w := by
  induction td with
  | nil => simp [setField]
  | cons kv rest ih =>
    by_cases hk : kv.1 = k
    · simp [setField, hk]
    · simp [setField, hk, ih]

/-- The customer dictionary comprehension is idempotent. -/
theorem scrubItems_idem (l : List (String × JVal)) :
    scrubItems (scrubItems l) = scrubItems l := by
  induction l with
  | nil => rfl
  | cons kv rest ih =>
    by_cases hk : kv.1 = "id" ∨ kv.1 = "object" <;>
      simp [scrubItems, hk] at ih ⊢ <;> exact ih

/-- C7: scrubbing a transaction object with a `customer` dictionary replaces
the value of every customer key other than `id` and `object` by the block
character and keeps `id`/`object` values; scrubbing is idempotent on every
object; and the fetch wrappers that return persisted objects are exactly the
raw responses passed through the scrub. -/
theorem scrub_customer_redaction (td : List (String × JVal)) :
    (∀ cust, lookupField td "customer" = some (JVal.obj cust) →
      scrub_customer_data td = setField td "customer" (JVal.obj (scrubItems cust)) ∧
      (∀ k v, (k, v) ∈ scrubItems cust →
        (k ≠ "id" ∧ k ≠ "object" → v = JVal.str "█") ∧
        ((k = "id" ∨ k = "object") → (k, v) ∈ cust))) ∧
    scrub_customer_data (scrub_customer_data td) = scrub_customer_data td ∧
    (∀ api idv, fetch_smart_transaction_info api idv =
        scrub_customer_data (api.get_smart_transaction idv) ∧
      fetch_payment_transaction_info api idv =
        scrub_customer_data (api.get_payment_transaction idv)) := by
  refine ⟨?_, ?_, fun api idv => ⟨rfl, rfl⟩⟩
  · intro cust h
    refine ⟨by simp [scrub_customer_data, h], ?_⟩
    intro k v hm
    obtain ⟨kv0, hkv0, heq⟩ := List.mem_map.1 hm
    obtain ⟨hk0, hv0⟩ := Prod.mk.injEq _ _ _ _ ▸ heq
    constructor
    · intro hne
      rw [← hv0]
      rw [if_neg]
      rw [hk0]
      push_neg
      exact hne
    · intro hio
      have : (kv0.1 = "id" ∨ kv0.1 = "object") := by
        rw [hk0]
        exact hio
      rw [← hk0, ← hv0, if_pos this]
      exact hkv0
  · cases h : lookupField td "customer" with
    | none => simp [scrub_customer_data, h]
    | some val =>
      cases val with
      | obj cust =>
        have h1 : scrub_customer_data td =
            setField td "customer" (JVal.obj (scrubItems cust)) := by
          simp [scrub_customer_data, h]
        have h2 : lookupField (setField td "customer"
              (JVal.obj (scrubItems cust))) "customer" =
            some (JVal.obj (scrubItems cust)) :=
          lookup_setField td "customer" _ _ h
        rw [h1]
        simp [scrub_customer_data, h2, scrubItems_idem, setField_setField]
      | str a => simp [scrub_customer_data, h]
      | num a => simp [scrub_customer_data, h]
      | arr a => simp [scrub_customer_data, h]
      | null => simp [scrub_customer_data, h]

/-- A concrete customer dictionary. -/
def cust0 : List (String × JVal) :=
  [("id", JVal.str "C1"), ("object", JVal.str "general.customers"),
    ("forename", JVal.str "Max")]

/-- A concrete transaction object containing `cust0`. -/
def td0 : List (String × JVal) :=
  [("id", JVal.str "ST1"), ("customer", JVal.obj cust0)]

/-- A raw API answering every request with `td0`. -/
def api0 : RawAPI := ⟨fun _ => td0, fun _ => td0⟩

/-- Witness for C7 at the concrete object `td0`. -/
theorem scrub_customer_redaction_witness :
    scrub_customer_data td0 =
      setField td0 "customer" (JVal.obj (scrubItems cust0)) ∧
    scrub_customer_data (scrub_customer_data td0) = scrub_customer_data td0 ∧
    fetch_smart_transaction_info api0 "ST1" =
      scrub_customer_data (api0.get_smart_transaction "ST1") :=
  ⟨((scrub_customer_redaction td0).1 cust0 rfl).1,
    (scrub_customer_redaction td0).2.1,
    ((scrub_customer_redaction td0).2.2 api0 "ST1").1⟩

/-! ### C8 -/

/-- One webhook delivery for the fixed transaction together with the
gateway's (successful) responses while it is processed: the freshly fetched
transaction, the checkStatus amount, and the responses for related-id
fetches. -/
structure Delivery where
  tx : Transaction
  checkAmount : Int
  related : String → Transaction

/-- The gateway as seen while processing delivery `d`. -/
def gwOfDelivery (d : Delivery) : Gateway :=
  ⟨fun i => if i = d.tx.id then Except.ok d.tx else Except.ok (d.related i),
    fun _ => Except.ok d.checkAmount⟩

/-- Process one delivery through the webhook handler. -/
def processDelivery (places : Nat) (q : Bool) (p : Payment) (d : Delivery) :
    StepResult :=
  handle_payment_transaction_update (gwOfDelivery d) places q p d.tx.id

/-- Process a sequence of deliveries (separate webhook requests). -/
def runDeliveries (places : Nat) (q : Bool) (p : Payment) :
    List Delivery → Payment
  | [] => p
  | d :: rest => runDeliveries places q (processDelivery places q p d).payment rest

/-- The parsed status a delivery reports. -/
def statusOf (d : Delivery) : Option PaymentStatusSimple :=
  PaymentStatusSimple.ofCode d.tx.details.status_simple

/-- The local-state transition of one dispatch-table row, ignoring
duplicate suppression. -/
def pureStep (s : PaymentStatusSimple) (st : PaymentState) : PaymentState :=
  if s = PaymentStatusSimple.ACCEPTED then PaymentState.confirmed
  else if s = PaymentStatusSimple.PENDING ∧ st = PaymentState.created then
    PaymentState.pending
  else if s = PaymentStatusSimple.DENIED ∧
      (st = PaymentState.created ∨ st = PaymentState.pending) then
    PaymentState.failed
  else st

/-- Absorbing the same status twice is the same as absorbing it once. -/
theorem pureStep_idem (s : PaymentStatusSimple) (st : PaymentState) :
    pureStep s (pureStep s st) = pureStep s st := by
  revert s st
  decide

/-- Invariant tying the stored snapshot to the current local state: the
status recorded in the snapshot parses, and its table transition from the
current state is a no-op (it has already been absorbed). -/
def SnapOk (p : Payment) : Prop :=
  ∀ tx0, p.info.payment_transaction = some tx0 →
    ∃ s0, PaymentStatusSimple.ofCode tx0.details.status_simple = some s0 ∧
      pureStep s0 p.state = p.state

/-- The handler's final state and info are those left by the dispatch: the
scan only appends refunds, and an exception inside the dispatch keeps its
partial effects. -/
theorem handle_payment_state_info (gw : Gateway) (places : Nat) (q : Bool)
    (p : Payment) (id : String) (tx : Transaction) (s : PaymentStatusSimple)
    (os : Option PaymentStatusSimple)
    (hfetch : gw.fetch_payment_transaction_info id = Except.ok tx)
    (hcode : PaymentStatusSimple.ofCode tx.details.status_simple = some s)
    (hold : computeOldStatus p = Except.ok os) :
    (handle_payment_transaction_update gw places q p id).payment.state =
      (dispatchStatus gw places q p id tx s os).1.state ∧
    (handle_payment_transaction_update gw places q p id).payment.info =
      (dispatchStatus gw places q p id tx s os).1.info := by
  rw [handle_unfold gw places q p id tx s os hfetch hcode hold]
  cases hd : (dispatchStatus gw places q p id tx s os).2.2 <;> simp [runScan]

/-- In the ISSUE/REFUND/VOID arm, whatever checkStatus answers, the local
state and the stored info are untouched; only refunds may be appended. -/
theorem dispatch_refund_arm_state_info (gw : Gateway) (places : Nat)
    (q : Bool) (p : Payment) (id : String) (tx : Transaction)
    (s : PaymentStatusSimple) (os : Option PaymentStatusSimple)
    (hdup : os ≠ some s)
    (hs : s = PaymentStatusSimple.ISSUE ∨ s = PaymentStatusSimple.REFUND ∨
      s = PaymentStatusSimple.VOID)
    (hconf : p.state = PaymentState.confirmed) :
    (dispatchStatus gw places q p id tx s os).1.state = p.state ∧
    (dispatchStatus gw places q p id tx s os).1.info = p.info := by
  rcases hs with h | h | h
  all_goals
    subst h
    cases hcs : gw.fetch_payment_transaction_status_amount id with
    | error e => simp [dispatchStatus, hdup, hconf, hcs]
    | ok a =>
      by_cases hlt : amount_to_decimal places a < p.amount <;>
        simp [dispatchStatus, hdup, hconf, hcs, hlt]

/-- On a non-duplicate dispatch, the new local state is the table
transition, and the stored info is either the freshly persisted snapshot or
(in the refund arm) untouched. -/
theorem dispatchStatus_state_info (gw : Gateway) (places : Nat) (q : Bool)
    (p : Payment) (id : String) (tx : Transaction) (s : PaymentStatusSimple)
    (os : Option PaymentStatusSimple)
    (hdup : os ≠ some s) :
    (dispatchStatus gw places q p id tx s os).1.state = pureStep s p.state ∧
    ((dispatchStatus gw places q p id tx s os).1.info =
        { p.info with payment_transaction := some tx } ∨
      ((dispatchStatus gw places q p id tx s os).1.info = p.info ∧
        (dispatchStatus gw places q p id tx s os).1.state = p.state)) := by
  by_cases h1 : s = PaymentStatusSimple.ACCEPTED
  · subst h1
    refine ⟨?_, Or.inl ?_⟩ <;> simp [dispatchStatus, hdup, confirmPayment, pureStep]
  · by_cases h2 : s = PaymentStatusSimple.PENDING ∧ p.state = PaymentState.created
    · obtain ⟨hs2, hc2⟩ := h2
      subst hs2
      refine ⟨?_, Or.inl ?_⟩ <;> simp [dispatchStatus, hdup, hc2, pureStep]
    · by_cases h3 : s = PaymentStatusSimple.DENIED ∧
          (p.state = PaymentState.created ∨ p.state = PaymentState.pending)
      · obtain ⟨hs3, hc3⟩ := h3
        subst hs3
        refine ⟨?_, Or.inl ?_⟩ <;> simp [dispatchStatus, hdup, hc3, pureStep]
      · by_cases h4 : (s = PaymentStatusSimple.ISSUE ∨
            s = PaymentStatusSimple.REFUND ∨ s = PaymentStatusSimple.VOID) ∧
            p.state = PaymentState.confirmed
        · obtain ⟨hs4, hc4⟩ := h4
          have hps : pureStep s p.state = p.state := by
            rcases hs4 with h | h | h <;> subst h <;> simp [pureStep]
          have key := dispatch_refund_arm_state_info gw places q p id tx s os
            hdup hs4 hc4
          exact ⟨by rw [hps]; exact key.1, Or.inr ⟨key.2, key.1⟩⟩
        · have hps : pureStep s p.state = p.state := by
            simp [pureStep, h1, h2, h3]
          refine ⟨?_, Or.inl ?_⟩ <;>
            simp [dispatchStatus, hdup, h1, h2, h3, h4, hps]

/-- One delivery moves the local state by the table transition of its
status, and preserves the snapshot invariant. -/
theorem processDelivery_step (places : Nat) (q : Bool) (p : Payment)
    (d : Delivery) (s : PaymentStatusSimple)
    (hs : statusOf d = some s) (hsnap : SnapOk p) :
    (processDelivery places q p d).payment.state = pureStep s p.state ∧
    SnapOk (processDelivery places q p d).payment := by
  unfold processDelivery
  have hfetch : (gwOfDelivery d).fetch_payment_transaction_info d.tx.id =
      Except.ok d.tx := by simp [gwOfDelivery]
  cases hptx : p.info.payment_transaction with
  | none =>
    have hold : computeOldStatus p = Except.ok none := by
      simp [computeOldStatus, hptx]
    have hsi := handle_payment_state_info (gwOfDelivery d) places q p d.tx.id
      d.tx s none hfetch hs hold
    have hds := dispatchStatus_state_info (gwOfDelivery d) places q p d.tx.id
      d.tx s none (by simp)
    refine ⟨hsi.1.trans hds.1, ?_⟩
    intro tx0 h0
    rcases hds.2 with hinfo | hinfo
    · rw [hsi.2, hinfo] at h0
      simp at h0
      refine ⟨s, ?_, ?_⟩
      · rw [← h0]
        exact hs
      · rw [hsi.1.trans hds.1]
        exact pureStep_idem s p.state
    · rw [hsi.2, hinfo.1, hptx] at h0
      cases h0
  | some txP =>
    obtain ⟨s0, hs0, hfix⟩ := hsnap txP hptx
    have hold : computeOldStatus p = Except.ok (some s0) := by
      simp [computeOldStatus, hptx, hs0]
    have hsi := handle_payment_state_info (gwOfDelivery d) places q p d.tx.id
      d.tx s (some s0) hfetch hs hold
    by_cases hdup : (some s0 : Option PaymentStatusSimple) = some s
    · have hss : s0 = s := by
        exact Option.some.inj hdup
      subst hss
      have hd := dispatch_duplicate (gwOfDelivery d) places q p d.tx.id d.tx s0
      have hst : (handle_payment_transaction_update (gwOfDelivery d) places q p
          d.tx.id).payment.state = p.state := by
        rw [hsi.1, hd]
      have hinf : (handle_payment_transaction_update (gwOfDelivery d) places q p
          d.tx.id).payment.info = p.info := by
        rw [hsi.2, hd]
      refine ⟨by rw [hst, hfix], ?_⟩
      intro tx0 h0
      rw [hinf, hptx] at h0
      obtain rfl : txP = tx0 := Option.some.inj h0
      exact ⟨s0, hs0, by rw [hst]; exact hfix⟩
    · have hds := dispatchStatus_state_info (gwOfDelivery d) places q p d.tx.id
        d.tx s (some s0) hdup
      refine ⟨hsi.1.trans hds.1, ?_⟩
      intro tx0 h0
      rcases hds.2 with hinfo | hinfo
      · rw [hsi.2, hinfo] at h0
        simp at h0
        refine ⟨s, ?_, ?_⟩
        · rw [← h0]
          exact hs
        · rw [hsi.1.trans hds.1]
          exact pureStep_idem s p.state
      · rw [hsi.2, hinfo.1, hptx] at h0
        obtain rfl : txP = tx0 := Option.some.inj h0
        have hstate : (handle_payment_transaction_update (gwOfDelivery d) places q
            p d.tx.id).payment.state = p.state := by
          rw [hsi.1]
          exact hinfo.2
        exact ⟨s0, hs0, by rw [hstate]; exact hfix⟩

/-- Folding the table transitions over a status sequence. -/
def stateFold (st : PaymentState) : List PaymentStatusSimple → PaymentState
  | [] => st
  | s :: rest => stateFold (pureStep s st) rest

/-- The state after a delivery sequence is the fold of the table
transitions over the reported statuses. -/
theorem runDeliveries_state (places : Nat) (q : Bool) :
    ∀ (ds : List Delivery) (sl : List PaymentStatusSimple) (p : Payment),
      ds.map statusOf = sl.map some → SnapOk p →
      (runDeliveries places q p ds).state = stateFold p.state sl := by
  intro ds
  induction ds with
  | nil =>
    intro sl p h hsnap
    cases sl with
    | nil => rfl
    | cons a t => simp at h
  | cons d rest ih =>
    intro sl p h hsnap
    cases sl with
    | nil => simp at h
    | cons s sl2 =>
      simp only [List.map_cons, List.cons.injEq] at h
      obtain ⟨h1, h2⟩ := h
      have hstep := processDelivery_step places q p d s h1 hsnap
      rw [runDeliveries, stateFold, ih sl2 _ h2 hstep.2, hstep.1]

/-- The state a status set settles to: ACCEPTED forces confirmed; otherwise
DENIED fails a created/pending payment, PENDING parks a created one, and
nothing else moves the state. -/
def finalState (st : PaymentState) (l : List PaymentStatusSimple) : PaymentState :=
  if PaymentStatusSimple.ACCEPTED ∈ l then PaymentState.confirmed
  else if st = PaymentState.created then
    (if PaymentStatusSimple.DENIED ∈ l then PaymentState.failed
      else if PaymentStatusSimple.PENDING ∈ l then PaymentState.pending
      else PaymentState.created)
  else if st = PaymentState.pending then
    (if PaymentStatusSimple.DENIED ∈ l then PaymentState.failed
      else PaymentState.pending)
  else st

/-- The fold of table transitions only depends on which statuses occur. -/
theorem stateFold_eq_finalState :
    ∀ (l : List PaymentStatusSimple) (st : PaymentState),
      stateFold st l = finalState st l := by
  intro l
  induction l with
  | nil =>
    intro st
    cases st <;> simp [stateFold, finalState]
  | cons s t ih =>
    intro st
    rw [stateFold, ih]
    by_cases hA : PaymentStatusSimple.ACCEPTED ∈ t <;>
      by_cases hD : PaymentStatusSimple.DENIED ∈ t <;>
      by_cases hP : PaymentStatusSimple.PENDING ∈ t <;>
      cases s <;> cases st <;>
      simp [pureStep, finalState, List.mem_cons, hA, hD, hP]

/-- `finalState` is a function of the membership predicate only. -/
theorem finalState_congr (st : PaymentState)
    (l1 l2 : List PaymentStatusSimple)
    (h : ∀ x, x ∈ l1 ↔ x ∈ l2) :
    finalState st l1 = finalState st l2 := by
  simp only [finalState, h]

/-- C8: for delivery sequences whose reported statuses all parse and start
from a payment satisfying the snapshot invariant, the final local payment
state depends only on the set of distinct statuses observed: two sequences
with the same status membership (any order, any duplicates) end in the same
state. -/
theorem redelivery_and_reordering_insensitive (places : Nat) (q : Bool)
    (p : Payment) (ds1 ds2 : List Delivery)
    (sl1 sl2 : List PaymentStatusSimple)
    (h1 : ds1.map statusOf = sl1.map some)
    (h2 : ds2.map statusOf = sl2.map some)
    (hsnap : SnapOk p)
    (hset : ∀ x, x ∈ sl1 ↔ x ∈ sl2) :
    (runDeliveries places q p ds1).state = (runDeliveries places q p ds2).state := by
  rw [runDeliveries_state places q ds1 sl1 p h1 hsnap,
    runDeliveries_state places q ds2 sl2 p h2 hsnap,
    stateFold_eq_finalState, stateFold_eq_finalState,
    finalState_congr p.state sl1 sl2 hset]

/-- A delivery reporting PENDING (wire code 10). -/
def dPending : Delivery := ⟨⟨"PT1", ⟨10⟩, 1000, []⟩, 1000, fun _ => txAccepted⟩

/-- A delivery reporting ACCEPTED (wire code 1). -/
def dAccepted : Delivery := ⟨txAccepted, 1000, fun _ => txAccepted⟩

/-- Witness for C8: [PENDING, ACCEPTED] and [ACCEPTED, PENDING, ACCEPTED]
end in the same state from a fresh payment. -/
theorem redelivery_and_reordering_insensitive_witness :
    (runDeliveries 2 false payCreated [dPending, dAccepted]).state =
      (runDeliveries 2 false payCreated [dAccepted, dPending, dAccepted]).state :=
  redelivery_and_reordering_insensitive 2 false payCreated
    [dPending, dAccepted] [dAccepted, dPending, dAccepted]
    [PaymentStatusSimple.PENDING, PaymentStatusSimple.ACCEPTED]
    [PaymentStatusSimple.ACCEPTED, PaymentStatusSimple.PENDING,
      PaymentStatusSimple.ACCEPTED]
    rfl rfl (by intro tx0 h0; simp [payCreated] at h0) (by decide)

end PretixSecuconnect
